import Mathlib

/-!
Verification of the storm-feed pipeline in `carstorms.py` (repo drhdev/carstorms).

The Python source is shallowly embedded: pure helpers become Lean functions,
the per-record loop of `main` becomes `processPlacemark`/`runLoop`, machine
floats used only as exact decimal literals become `ℚ`, timestamps become `Int`
(an instant encoding), and the two ambient library functions — geopy's
`geodesic(...).km` and `datetime.fromisoformat` — are passed as parameters
(`dist`, `parse`), with a concrete executable instance of each used in
witnesses.  Fallible code paths are modelled with `Option`/`Except`.
-/

namespace Carstorms

/-! ## Python string/number primitives (models of the ambient language) -/

/-- Model of Python `str.split()` (no argument): split on runs of whitespace,
dropping empty chunks.  Worker over the character list. -/
def splitWsGo : List Char → List Char → List String
  | [], acc => if acc.isEmpty then [] else [String.mk acc.reverse]
  | c :: cs, acc =>
    if c.isWhitespace then
      if acc.isEmpty then splitWsGo cs [] else String.mk acc.reverse :: splitWsGo cs []
    else splitWsGo cs (c :: acc)

/-- Model of Python `str.split()` with no separator argument. -/
def pySplitWs (s : String) : List String := splitWsGo s.toList []

/-- Split a character list at every occurrence of `sep`, keeping empty chunks
(the behaviour of Python `str.split(sep)` for a one-character separator). -/
def splitCharAll (sep : Char) : List Char → List Char → List String
  | [], acc => [String.mk acc.reverse]
  | c :: cs, acc =>
    if c = sep then String.mk acc.reverse :: splitCharAll sep cs []
    else splitCharAll sep cs (c :: acc)

/-- Model of Python `str.split(',')`. -/
def pySplitComma (s : String) : List String := splitCharAll ',' s.toList []

/-- Model of Python `str.splitlines()` restricted to `\n` line boundaries
(the feed's advisory text uses plain newlines): a trailing terminator does not
produce a trailing empty line, and the empty string has no lines. -/
def pySplitlines (s : String) : List String :=
  let parts := splitCharAll '\n' s.toList []
  if parts.getLast? = some "" then parts.dropLast else parts

/-- Model of Python `str.strip()`: drop leading and trailing whitespace. -/
def pyStrip (s : String) : String :=
  String.mk (((s.toList.dropWhile Char.isWhitespace).reverse.dropWhile
    Char.isWhitespace).reverse)

/-- Whether `p` is a prefix of `l` (over characters). -/
def listPrefixOf : List Char → List Char → Bool
  | [], _ => true
  | _ :: _, [] => false
  | a :: as, b :: bs => a == b && listPrefixOf as bs

/-- Whether `p` occurs as a contiguous run inside `l`. -/
def listContains (p : List Char) : List Char → Bool
  | [] => p.isEmpty
  | c :: cs => listPrefixOf p (c :: cs) || listContains p cs

/-- Model of the Python substring test `pat in s`. -/
def strContains (s pat : String) : Bool := listContains pat.toList s.toList

/-- Model of Python `s.replace("Z", "+00:00")` (one-character pattern):
every `'Z'` is replaced by the six characters `+00:00`. -/
def pyReplaceZ (s : String) : String :=
  String.mk (s.toList.flatMap fun c =>
    if c = 'Z' then ['+', '0', '0', ':', '0', '0'] else [c])

/-- Decimal value of a digit character. -/
def digitVal (c : Char) : Nat := c.toNat - 48

/-- Digits of a Python integer literal after the first: decimal digits with
single underscores allowed between digits. -/
def pyDigitsGo : Nat → List Char → Option Nat
  | acc, [] => some acc
  | acc, c :: cs =>
    if c.isDigit then pyDigitsGo (acc * 10 + digitVal c) cs
    else if c = '_' then
      match cs with
      | d :: _ => if d.isDigit then pyDigitsGo acc cs else none
      | [] => none
    else none

/-- Value of a nonempty digit string (first character must be a digit). -/
def pyDigitsVal : List Char → Option Nat
  | [] => none
  | c :: cs => if c.isDigit then pyDigitsGo (digitVal c) cs else none

/-- Model of Python `int(token)` on a whitespace-free token: optional sign,
then decimal digits (with Python's underscore grouping). -/
def pyInt (s : String) : Option Int :=
  match s.toList with
  | '+' :: rest => (pyDigitsVal rest).map fun n => (n : Int)
  | '-' :: rest => (pyDigitsVal rest).map fun n => -(n : Int)
  | l => (pyDigitsVal l).map fun n => (n : Int)

/-- Value of a plain digit run (no underscores), with the remaining input. -/
def takeDigits : List Char → Nat → List Char × Nat × Nat
  | [], acc => ([], acc, 0)
  | c :: cs, acc =>
    if c.isDigit then
      let r := takeDigits cs (acc * 10 + digitVal c)
      (r.1, r.2.1, r.2.2 + 1)
    else (c :: cs, acc, 0)

/-- Mantissa of a float literal: `digits [. digits]` with at least one digit
overall.  Returns the remaining input, the mantissa value as an integer, and
the number of fractional digits. -/
def pyFloatMantissa (l : List Char) : Option (List Char × Nat × Nat) :=
  let (rest1, ip, nInt) := takeDigits l 0
  match rest1 with
  | '.' :: rest2 =>
    let (rest3, fullv, nFrac) := takeDigits rest2 ip
    if nInt + nFrac = 0 then none else some (rest3, fullv, nFrac)
  | _ => if nInt = 0 then none else some (rest1, ip, 0)

/-- Optional exponent part `([e|E] [+|-] digits)` of a float literal. -/
def pyFloatExp : List Char → Option Int
  | [] => some 0
  | c :: cs =>
    if c = 'e' ∨ c = 'E' then
      match cs with
      | '+' :: ds => match takeDigits ds 0 with
        | ([], v, n) => if n = 0 then none else some (v : Int)
        | _ => none
      | '-' :: ds => match takeDigits ds 0 with
        | ([], v, n) => if n = 0 then none else some (-(v : Int))
        | _ => none
      | ds => match takeDigits ds 0 with
        | ([], v, n) => if n = 0 then none else some (v : Int)
        | _ => none
    else none

/-- Model of Python `float(token)` on the decimal forms the feed produces:
optional sign, decimal mantissa, optional exponent.  (`inf`/`nan` and
underscore grouping never occur in the claims and are not modelled.) -/
def pyFloat (s : String) : Option ℚ :=
  let core : List Char → Option ℚ := fun l =>
    match pyFloatMantissa l with
    | none => none
    | some (rest, v, nFrac) =>
      match pyFloatExp rest with
      | none => none
      | some e =>
        let base : ℚ := if nFrac = 0 then (v : ℚ) else (v : ℚ) / ((10 : ℚ) ^ nFrac)
        if e = 0 then some base
        else if 0 ≤ e then some (base * (10 : ℚ) ^ e.toNat)
        else some (base / (10 : ℚ) ^ (-e).toNat)
  match s.toList with
  | '+' :: rest => core rest
  | '-' :: rest => (core rest).map Neg.neg
  | l => core l

/-- Model of Python `round(x)` to an integer: round half to even. -/
def pyRound (q : ℚ) : Int :=
  let fl := ⌊q⌋
  let fr := q - fl
  if fr < 1/2 then fl
  else if 1/2 < fr then fl + 1
  else if fl % 2 = 0 then fl else fl + 1

/-- Two digit characters read as a two-digit number. -/
def twoDigits (a b : Char) : Option Nat :=
  if a.isDigit ∧ b.isDigit then some (digitVal a * 10 + digitVal b) else none

/-- Core of the modelled ISO-8601 parser: a `YYYY-MM-DDTHH:MM:SS` character
block mapped to a deterministic instant encoding (a simplified linear
calendar; the claims depend only on determinism of the encoding). -/
def isoCore (y1 y2 y3 y4 m1 m2 d1 d2 h1 h2 n1 n2 s1 s2 : Char) : Option Int :=
  match twoDigits y1 y2, twoDigits y3 y4, twoDigits m1 m2, twoDigits d1 d2,
      twoDigits h1 h2, twoDigits n1 n2, twoDigits s1 s2 with
  | some yh, some yl, some mo, some dy, some hh, some mi, some ss =>
    let y := yh * 100 + yl
    some (((((y * 372 + (mo - 1) * 31 + (dy - 1)) * 24 + hh) * 60 + mi) * 60 + ss : Nat) : Int)
  | _, _, _, _, _, _, _ => none

/-- Model of `datetime.fromisoformat` on the shapes the NHC feed produces
after the `Z → +00:00` replacement: `YYYY-MM-DDTHH:MM:SS` with an optional
`+00:00` UTC suffix. -/
def pyFromIso (s : String) : Option Int :=
  match s.toList with
  | [y1, y2, y3, y4, '-', m1, m2, '-', d1, d2, 'T',
     h1, h2, ':', n1, n2, ':', s1, s2] =>
    isoCore y1 y2 y3 y4 m1 m2 d1 d2 h1 h2 n1 n2 s1 s2
  | [y1, y2, y3, y4, '-', m1, m2, '-', d1, d2, 'T',
     h1, h2, ':', n1, n2, ':', s1, s2, '+', '0', '0', ':', '0', '0'] =>
    isoCore y1 y2 y3 y4 m1 m2 d1 d2 h1 h2 n1 n2 s1 s2
  | _ => none

/-! ## Data model (src/carstorms.py) -/

/-- A track point as scanned by `analyze_proximity`: a `(longitude, latitude)`
coordinate pair zipped with its timestamp (instant encoding in seconds). -/
abbrev Pt : Type := (ℚ × ℚ) × Int

/-- One entry of a storm's `locations` list (src lines 136-140).  The source
renders `expected_impact_time` with `strftime`; the embedding keeps the
shifted instant itself, the rendering being presentation only. -/
structure ProximityResult where
  location : String
  expected_impact_time : Int
  distance_km : Int
  deriving DecidableEq

/-- One entry of the report's `storms` array (src lines 234-240). -/
structure StormEntry where
  name : String
  wind_kt : Int
  wind_kmh : Int
  category_description : String
  locations : List ProximityResult
  deriving DecidableEq

/-- The configuration values `main` consumes (src lines 156-159): the radius
and threshold are coerced with `int(...)`; the locations dict (insertion
ordered) maps a name to a `(lat, lon)` pair. -/
structure Config where
  alert_radius_km : Int
  wind_threshold_kt : Int
  locations : List (String × (ℚ × ℚ))
  deriving DecidableEq

/-- A raw KML placemark as `main` reads it (src lines 185-205): optional tag
texts are `Option String`; for elements whose presence and text are checked
separately (`coordinates`, `begin`, `end`) the outer `Option` is element
presence and the inner one the element's text. -/
structure RawPlacemark where
  name : Option String
  desc : Option String
  coordText : Option (Option String)
  timeSpan : Option (Option (Option String) × Option (Option String))
  whens : List (Option String)

/-- The report object assembled by `main` (src lines 163-172, 245-246);
the run timestamp and the constant `name`/`description` fields are elided. -/
structure Report where
  status : String
  message : String
  locations_monitored : List String
  alert_radius_km : Int
  storms : List StormEntry
  deriving DecidableEq

/-! ## Helper functions (src lines 97-141) -/

/-- Source `knots_to_kmh` (line 97): `round(knots * 1.852)`, the float
product modelled exactly in `ℚ`. -/
def knots_to_kmh (knots : Int) : Int := pyRound ((knots : ℚ) * (1852 / 1000))

/-- Source `CATEGORY_SCALE` (lines 70-77), verbatim. -/
def CATEGORY_SCALE : List (Int × String) := [
  (252, "Category 5 of 5: Catastrophic – Most buildings destroyed, area uninhabitable."),
  (209, "Category 4 of 5: Very severe – Long power/water outages, major destruction."),
  (178, "Category 3 of 5: Severe – Widespread damage, long outages."),
  (154, "Category 2 of 5: Moderate – Large trees uprooted, major roof damage."),
  (119, "Category 1 of 5: Weak – Roof and tree damage, power outages likely."),
  (63,  "Tropical Storm – Strong wind, high seas, possible flooding.")]

/-- The `for` loop of `classify_storm`: first threshold met wins. -/
def classifyGo (wind_kmh : Int) : List (Int × String) → String
  | [] => "Below tropical storm threshold – not considered dangerous."
  | (threshold, description) :: rest =>
    if wind_kmh ≥ threshold then description else classifyGo wind_kmh rest

/-- Source `classify_storm` (lines 100-104). -/
def classify_storm (wind_kmh : Int) : String := classifyGo wind_kmh CATEGORY_SCALE

/-- Distance of one track point from a location, as the source computes it
(line 130): `geodesic((lat, lon), loc_coords).km` with the point stored as
`(lon, lat)`.  `dist` is the ambient geodesic function. -/
def ptDist (dist : ℚ × ℚ → ℚ × ℚ → ℚ) (lc : ℚ × ℚ) (p : Pt) : ℚ :=
  dist (p.1.2, p.1.1) lc

/-- One iteration of the inner scan of `analyze_proximity` (lines 129-133).
The running `min_distance` always equals the distance stored in `closest`
once `closest` is set, so the pair `(closest, min_distance)` collapses to an
`Option (Int × ℚ)` accumulator (`float('inf')` needs no representation: the
first iteration always replaces it). -/
def scanStep (dist : ℚ × ℚ → ℚ × ℚ → ℚ) (lc : ℚ × ℚ)
    (acc : Option (Int × ℚ)) (p : Pt) : Option (Int × ℚ) :=
  let d := ptDist dist lc p
  match acc with
  | none => some (p.2, d)
  | some (t0, d0) => if d < d0 then some (p.2, d) else some (t0, d0)

/-- The inner scan of `analyze_proximity` over `zip(coords, times)`. -/
def scanClosest (dist : ℚ × ℚ → ℚ × ℚ → ℚ) (lc : ℚ × ℚ)
    (pts : List Pt) : Option (Int × ℚ) :=
  pts.foldl (scanStep dist lc) none

/-- Source `analyze_proximity` (lines 120-141): truncate both inputs to the
shorter length, then per location emit a result when the closest point exists
and its distance is within the radius; the impact time is shifted by −4 hours
(14400 seconds) and the distance rounded. -/
def analyze_proximity (dist : ℚ × ℚ → ℚ × ℚ → ℚ) (coords : List (ℚ × ℚ))
    (times : List Int) (locations : List (String × (ℚ × ℚ)))
    (alert_radius_km : Int) : List ProximityResult :=
  let min_len := min coords.length times.length
  let coords := coords.take min_len
  let times := times.take min_len
  locations.filterMap fun nl =>
    match scanClosest dist nl.2 (coords.zip times) with
    | none => none
    | some (t, d) =>
      if d ≤ (alert_radius_km : ℚ) then
        some { location := nl.1, expected_impact_time := t - 4 * 3600,
               distance_km := pyRound d }
      else none

/-! ## Per-record decoding (the loop body of `main`, src lines 183-244) -/

/-- Reading one `when` tag (src line 205): a missing text raises
`AttributeError`, a bad value raises in `fromisoformat`; either way the outer
per-record handler fires. -/
def whenEntry (parse : String → Option Int) (w : Option String) :
    Except Unit Int :=
  match w with
  | none => .error ()
  | some ws =>
    match parse (pyReplaceZ ws) with
    | some t => .ok t
    | none => .error ()

/-- Timestamp resolution (src lines 192-205): a present `TimeSpan` element is
preferred; its `begin`/`end` pair is used only when both elements exist, and
a missing text or unparseable value raises (→ the outer per-record handler).
Only when no `TimeSpan` element exists are the `when` tags read.  Each text
has `Z` replaced by `+00:00` before `fromisoformat` (`parse`). -/
def resolveTimes (parse : String → Option Int)
    (timeSpan : Option (Option (Option String) × Option (Option String)))
    (whens : List (Option String)) : Except Unit (List Int) :=
  match timeSpan with
  | some (b, e) =>
    match b, e with
    | some bo, some eo =>
      match bo, eo with
      | some bs, some es =>
        match parse (pyReplaceZ bs), parse (pyReplaceZ es) with
        | some t1, some t2 => .ok [t1, t2]
        | _, _ => .error ()
      | _, _ => .error ()
    | _, _ => .ok []
  | none => whens.mapM (whenEntry parse)

/-- One coordinate chunk (src line 208): `tuple(map(float, c.split(',')[:2]))`.
A chunk with a single comma-component yields a 1-tuple (second component
`none`), not an error. -/
def parseCoordChunk (c : String) : Option (ℚ × Option ℚ) :=
  match (pySplitComma c).take 2 with
  | [a] => (pyFloat a).map fun x => (x, none)
  | [a, b] =>
    match pyFloat a, pyFloat b with
    | some x, some y => some (x, some y)
    | _, _ => none
  | _ => none

/-- Coordinate parsing inside the inner `try` (src lines 206-208): a missing
`coordinates` element or missing text raises `AttributeError`, a bad float
raises `ValueError`; both land in the handler that executes `return`. -/
def parseCoords (coordText : Option (Option String)) :
    Except Unit (List (ℚ × Option ℚ)) :=
  match coordText with
  | some (some ct) =>
    match (pySplitWs (pyStrip ct)).mapM parseCoordChunk with
    | some cs => .ok cs
    | none => .error ()
  | _ => .error ()

/-- The wind-speed scan (src lines 216-223) applied to one line: token index 3
of `line.split()`, parsed with `int`; a short line (IndexError) counts as a
parse failure. -/
def parseWindToken (line : String) : Option Int :=
  match (pySplitWs line).get? 3 with
  | some tok => pyInt tok
  | none => none

/-- The wind-speed loop (src lines 216-223): a matching line whose token does
not parse logs a warning and the loop continues with later lines. -/
def windScan : List String → Option Int
  | [] => none
  | l :: ls =>
    if strContains l "Maximum sustained winds" then
      match parseWindToken l with
      | some w => some w
      | none => windScan ls
    else windScan ls

/-- Wind-speed extraction from the advisory text (src lines 215-223). -/
def extractWindKt (desc : String) : Option Int := windScan (pySplitlines desc)

/-- Keep only the well-formed `(lon, lat)` pairs of a parsed coordinate
list. -/
def pairsOf (l : List (ℚ × Option ℚ)) : List (ℚ × ℚ) :=
  l.filterMap fun c => c.2.map fun la => (c.1, la)

/-- Outcome of one iteration of the placemark loop: the record is skipped
(`continue`), the whole run is aborted (the `return` on src line 214), or a
storm entry is appended. -/
inductive RecOutcome where
  | skip
  | abort
  | keep (s : StormEntry)
  deriving DecidableEq

/-- The loop body of `main` for one placemark (src lines 183-244), in source
order: name check, timestamp resolution (whose exceptions hit the outer
per-record handler → skip), coordinate parsing (whose exceptions hit the
inner handler → `return`, i.e. abort), truncation to the shorter length,
wind extraction and threshold test, proximity analysis (a 1-tuple coordinate
raises during tuple unpacking when at least one location is scanned → outer
handler → skip), and the no-affected-location filter. -/
def processPlacemark (parse : String → Option Int)
    (dist : ℚ × ℚ → ℚ × ℚ → ℚ) (cfg : Config) (r : RawPlacemark) : RecOutcome :=
  match r.name with
  | none => .skip
  | some nmText =>
    if nmText = "" then .skip else
    let name := pyStrip nmText
    let description_text := r.desc.getD ""
    match resolveTimes parse r.timeSpan r.whens with
    | .error _ => .skip
    | .ok times0 =>
      match parseCoords r.coordText with
      | .error _ => .abort
      | .ok rawCoords =>
        let min_len := min rawCoords.length times0.length
        let coords := rawCoords.take min_len
        let times := times0.take min_len
        match extractWindKt description_text with
        | none => .skip
        | some wind_kt =>
          if wind_kt < cfg.wind_threshold_kt then .skip
          else if ¬ cfg.locations.isEmpty ∧ coords.any (fun c => c.2.isNone) then
            .skip
          else
            let wind_kmh := knots_to_kmh wind_kt
            let category_text := classify_storm wind_kmh
            let locations_result :=
              analyze_proximity dist (pairsOf coords) times cfg.locations
                cfg.alert_radius_km
            if ¬ cfg.locations.isEmpty ∧ locations_result.isEmpty then .skip
            else .keep { name := name, wind_kt := wind_kt, wind_kmh := wind_kmh,
                         category_description := category_text,
                         locations := locations_result }

/-- The placemark loop (src lines 183-244): a `skip` continues, an `abort`
returns from `main` (so no later record is processed and no output is
written), a kept entry is appended in feed order. -/
def runLoop (parse : String → Option Int) (dist : ℚ × ℚ → ℚ × ℚ → ℚ)
    (cfg : Config) : List RawPlacemark → List StormEntry → Option (List StormEntry)
  | [], acc => some acc
  | r :: rs, acc =>
    match processPlacemark parse dist cfg r with
    | .abort => none
    | .skip => runLoop parse dist cfg rs acc
    | .keep s => runLoop parse dist cfg rs (acc ++ [s])

/-- Report assembly of `main` (src lines 163-178, 245-246): the fetch result
is `none` when `fetch_active_storms_kml` signalled failure (then status is
`error` with the fixed message and no storms); otherwise the loop runs and —
when it was not aborted — the summary message is the count message exactly
when the storm list is nonempty.  `none` overall means the `return` on src
line 214 fired and no report was written. -/
def buildReport (parse : String → Option Int) (dist : ℚ × ℚ → ℚ × ℚ → ℚ)
    (cfg : Config) (fetched : Option (List RawPlacemark)) : Option Report :=
  match fetched with
  | none =>
    some { status := "error",
           message := "Failed to fetch or parse active storm data.",
           locations_monitored := cfg.locations.map (fun nl => nl.1),
           alert_radius_km := cfg.alert_radius_km, storms := [] }
  | some pms =>
    match runLoop parse dist cfg pms [] with
    | none => none
    | some storms =>
      some { status := "ok",
             message := if storms.isEmpty then
                 "No active dangerous storms near monitored locations."
               else toString storms.length ++ " active dangerous storm(s) found.",
             locations_monitored := cfg.locations.map (fun nl => nl.1),
             alert_radius_km := cfg.alert_radius_km, storms := storms }

/-! ## Specification-side description of the proximity scan

`closestSpec` is the spec's description of the inner scan (§4.4 of the spec):
the minimum track-point distance together with the timestamp of the earliest
point achieving it (a head point wins a tie against the rest).  The theorems
below prove the source's one-pass scan equal to it. -/

/-- Minimum distance and earliest minimizing timestamp, as the spec words it. -/
def closestSpec (dist : ℚ × ℚ → ℚ × ℚ → ℚ) (lc : ℚ × ℚ) :
    List Pt → Option (Int × ℚ)
  | [] => none
  | p :: ps =>
    match closestSpec dist lc ps with
    | none => some (p.2, ptDist dist lc p)
    | some (t, m) =>
      if ptDist dist lc p ≤ m then some (p.2, ptDist dist lc p) else some (t, m)

/-- The update of the source scan once a closest candidate exists. -/
def scanUpd (dist : ℚ × ℚ → ℚ × ℚ → ℚ) (lc : ℚ × ℚ)
    (a : Int × ℚ) (p : Pt) : Int × ℚ :=
  if ptDist dist lc p < a.2 then (p.2, ptDist dist lc p) else a

lemma scanStep_some (dist : ℚ × ℚ → ℚ × ℚ → ℚ) (lc : ℚ × ℚ)
    (a : Int × ℚ) (p : Pt) :
    scanStep dist lc (some a) p = some (scanUpd dist lc a p) := by
  obtain ⟨t0, d0⟩ := a
  simp only [scanStep, scanUpd]
  split <;> rfl

lemma foldl_scanStep_some (dist : ℚ × ℚ → ℚ × ℚ → ℚ) (lc : ℚ × ℚ) :
    ∀ (ps : List Pt) (a : Int × ℚ),
      ps.foldl (scanStep dist lc) (some a) = some (ps.foldl (scanUpd dist lc) a)
  | [], _ => rfl
  | p :: ps, a => by
    rw [List.foldl_cons, List.foldl_cons, scanStep_some,
      foldl_scanStep_some dist lc ps]

lemma foldl_scanUpd_spec (dist : ℚ × ℚ → ℚ × ℚ → ℚ) (lc : ℚ × ℚ) :
    ∀ (ps : List Pt) (a : Int × ℚ),
      ps.foldl (scanUpd dist lc) a =
        match closestSpec dist lc ps with
        | none => a
        | some (t, m) => if m < a.2 then (t, m) else a
  | [], _ => rfl
  | p :: ps, a => by
    rw [List.foldl_cons, foldl_scanUpd_spec dist lc ps]
    cases hs : closestSpec dist lc ps with
    | none =>
      simp only [closestSpec, hs, scanUpd]
      try (split <;> rfl)
    | some tm =>
      obtain ⟨t, m⟩ := tm
      simp only [closestSpec, hs, scanUpd]
      rcases lt_or_le (ptDist dist lc p) a.2 with h1 | h1 <;>
        rcases le_or_lt (ptDist dist lc p) m with h2 | h2 <;>
        split_ifs <;> simp_all <;>
        (try split_ifs) <;> first
        | rfl
        | linarith
        | (exfalso; linarith)

/-- The source's one-pass scan computes exactly the spec's minimum with the
earliest tie-broken witness. -/
lemma scanClosest_eq_closestSpec (dist : ℚ × ℚ → ℚ × ℚ → ℚ) (lc : ℚ × ℚ)
    (pts : List Pt) : scanClosest dist lc pts = closestSpec dist lc pts := by
  cases pts with
  | nil => rfl
  | cons p ps =>
    have h0 : scanStep dist lc none p = some (p.2, ptDist dist lc p) := rfl
    rw [scanClosest, List.foldl_cons, h0, foldl_scanStep_some,
      foldl_scanUpd_spec]
    cases hs : closestSpec dist lc ps with
    | none => simp [closestSpec, hs]
    | some tm =>
      obtain ⟨t, m⟩ := tm
      simp only [closestSpec, hs]
      rcases le_or_lt (ptDist dist lc p) m with h2 | h2 <;> split_ifs <;>
        simp_all <;> (try split_ifs) <;> first
        | rfl
        | linarith
        | (exfalso; linarith)

lemma closestSpec_none_iff (dist : ℚ × ℚ → ℚ × ℚ → ℚ) (lc : ℚ × ℚ)
    (pts : List Pt) : closestSpec dist lc pts = none ↔ pts = [] := by
  cases pts with
  | nil => simp [closestSpec]
  | cons p ps =>
    cases hs : closestSpec dist lc ps with
    | none => simp [closestSpec, hs]
    | some tm =>
      obtain ⟨t, m⟩ := tm
      simp only [closestSpec, hs]
      split <;> simp

/-- Every `some` answer of `closestSpec` is the distance of an actual track
point, is a lower bound of all track-point distances, and its witness is the
earliest such point: all points before it are strictly farther. -/
lemma closestSpec_some (dist : ℚ × ℚ → ℚ × ℚ → ℚ) (lc : ℚ × ℚ) :
    ∀ (pts : List Pt) (t : Int) (m : ℚ),
      closestSpec dist lc pts = some (t, m) →
      ∃ pre q post, pts = pre ++ q :: post ∧ q.2 = t ∧ ptDist dist lc q = m ∧
        (∀ r ∈ pre, m < ptDist dist lc r) ∧ (∀ r ∈ pts, m ≤ ptDist dist lc r)
  | [], t, m, h => by simp [closestSpec] at h
  | p :: ps, t, m, h => by
    cases hs : closestSpec dist lc ps with
    | none =>
      simp only [closestSpec, hs, Option.some.injEq, Prod.mk.injEq] at h
      obtain ⟨ht, hm⟩ := h
      have hps : ps = [] := (closestSpec_none_iff dist lc ps).mp hs
      subst hps
      exact ⟨[], p, [], rfl, ht, hm, by simp, by simp [← hm]⟩
    | some tm =>
      obtain ⟨t', m'⟩ := tm
      simp only [closestSpec, hs] at h
      by_cases hle : ptDist dist lc p ≤ m'
      · rw [if_pos hle] at h
        simp only [Option.some.injEq, Prod.mk.injEq] at h
        obtain ⟨ht, hm⟩ := h
        refine ⟨[], p, ps, rfl, ht, hm, by simp, ?_⟩
        intro r hr
        rcases List.mem_cons.mp hr with h1 | h1
        · subst h1; rw [hm]
        · obtain ⟨_, _, _, _, _, _, _, hall⟩ := closestSpec_some dist lc ps t' m' hs
          calc m ≤ m' := by rw [← hm]; exact hle
            _ ≤ ptDist dist lc r := hall r h1
      · rw [if_neg hle] at h
        push_neg at hle
        simp only [Option.some.injEq, Prod.mk.injEq] at h
        obtain ⟨ht, hm⟩ := h
        subst ht; subst hm
        obtain ⟨pre, q, post, hsplit, hqt, hqm, hpre, hall⟩ :=
          closestSpec_some dist lc ps t' m' hs
        refine ⟨p :: pre, q, post, by rw [hsplit]; rfl, hqt, hqm, ?_, ?_⟩
        · intro r hr
          rcases List.mem_cons.mp hr with h1 | h1
          · subst h1; exact hle
          · exact hpre r h1
        · intro r hr
          rcases List.mem_cons.mp hr with h1 | h1
          · subst h1; exact le_of_lt hle
          · exact hall r h1

/-- Truncating both lists to the shorter length before zipping gives the
plain zip (which already stops at the shorter list). -/
lemma take_min_zip : ∀ (a : List (ℚ × ℚ)) (b : List Int),
    (a.take (min a.length b.length)).zip (b.take (min a.length b.length)) =
      a.zip b
  | [], _ => by simp
  | _ :: _, [] => by simp
  | x :: xs, y :: ys => by
    simp only [List.length_cons, Nat.succ_min_succ, List.take_succ_cons,
      List.zip_cons_cons]
    rw [take_min_zip xs ys]

/-- Per-location emission as the spec describes it (§4.4): take the minimum
distance over the track with its earliest witness (`closestSpec`), emit a
result only when that minimum is within the radius, carrying the rounded
minimum and the witness timestamp shifted by −4 hours. -/
def emitSpec (dist : ℚ × ℚ → ℚ × ℚ → ℚ) (radius : Int) (pts : List Pt)
    (nl : String × (ℚ × ℚ)) : Option ProximityResult :=
  match closestSpec dist nl.2 pts with
  | none => none
  | some (t, m) =>
    if m ≤ (radius : ℚ) then
      some { location := nl.1, expected_impact_time := t - 4 * 3600,
             distance_km := pyRound m }
    else none

/-- The source `analyze_proximity` is exactly the spec's per-location
emission mapped over the configured locations. -/
lemma analyze_proximity_eq (dist : ℚ × ℚ → ℚ × ℚ → ℚ) (coords : List (ℚ × ℚ))
    (times : List Int) (locs : List (String × (ℚ × ℚ))) (radius : Int) :
    analyze_proximity dist coords times locs radius =
      locs.filterMap (emitSpec dist radius (coords.zip times)) := by
  simp only [analyze_proximity, take_min_zip]
  apply List.filterMap_congr
  intro nl _
  rw [scanClosest_eq_closestSpec]
  rfl

/-- Sample geodesic stand-in used by concrete witnesses: constant distance 0. -/
def dist0 : ℚ × ℚ → ℚ × ℚ → ℚ := fun _ _ => 0

/-- Sample timestamp parser stand-in used by concrete witnesses. -/
def parse0 : String → Option Int := fun _ => some 0

/-- C6: for every track and every monitored location, the proximity analyzer
emits a `ProximityResult` for that location iff the (truncated, zipped) track
is non-empty and the minimum distance from the location to its points is at
most the alert radius; the emitted entry carries that minimum rounded to a
whole kilometer and the timestamp of a minimizing point shifted by −4 hours;
an empty track yields no results.  Stated as: `analyze_proximity` equals the
spec-side `emitSpec` map, whose `closestSpec` core returns `none` exactly on
the empty track and otherwise an attained lower bound of all point
distances. -/
theorem claim_C6 (dist : ℚ × ℚ → ℚ × ℚ → ℚ) (coords : List (ℚ × ℚ))
    (times : List Int) (locs : List (String × (ℚ × ℚ))) (radius : Int) :
    (analyze_proximity dist coords times locs radius =
        locs.filterMap (emitSpec dist radius (coords.zip times)))
      ∧ (coords.zip times = [] →
          analyze_proximity dist coords times locs radius = [])
      ∧ (∀ lc, closestSpec dist lc (coords.zip times) = none ↔
          coords.zip times = [])
      ∧ (∀ lc t m, closestSpec dist lc (coords.zip times) = some (t, m) →
          (∀ p ∈ coords.zip times, m ≤ ptDist dist lc p) ∧
          ∃ p ∈ coords.zip times, ptDist dist lc p = m ∧ p.2 = t) := by
  refine ⟨analyze_proximity_eq dist coords times locs radius, ?_, ?_, ?_⟩
  · intro h
    rw [analyze_proximity_eq, h]
    exact List.filterMap_eq_nil_iff.mpr fun nl _ => rfl
  · intro lc
    exact closestSpec_none_iff dist lc (coords.zip times)
  · intro lc t m h
    obtain ⟨pre, q, post, hsplit, hqt, hqm, _, hall⟩ :=
      closestSpec_some dist lc (coords.zip times) t m h
    exact ⟨hall, q, by simp [hsplit], hqm, hqt⟩

/-- C6 witness: a concrete two-point track with the constant-0 distance
function, one location, radius 5. -/
theorem claim_C6_witness :
    (∀ p ∈ ([((0, 0), 100), ((1, 1), 200)] : List Pt),
        (0 : ℚ) ≤ ptDist dist0 (0, 0) p) ∧
      ∃ p ∈ ([((0, 0), 100), ((1, 1), 200)] : List Pt),
        ptDist dist0 (0, 0) p = 0 ∧ p.2 = 100 :=
  (claim_C6 dist0 [(0, 0), (1, 1)] [100, 200] [("A", (0, 0))] 5).2.2.2
    (0, 0) 100 0 (by decide)

/-- C7: when several track points attain the minimum distance, the emitted
timestamp comes from the earliest such point — the scan replaces its running
minimum only on strict less-than.  Stated as: whatever `scanClosest` returns
splits the track into a prefix of strictly farther points, the witness point
itself (whose timestamp and distance are returned), and a suffix, the
returned distance bounding the whole track from below. -/
theorem claim_C7 (dist : ℚ × ℚ → ℚ × ℚ → ℚ) (lc : ℚ × ℚ) (pts : List Pt)
    (t : Int) (m : ℚ) (h : scanClosest dist lc pts = some (t, m)) :
    ∃ pre q post, pts = pre ++ q :: post ∧ q.2 = t ∧ ptDist dist lc q = m ∧
      (∀ r ∈ pre, m < ptDist dist lc r) ∧ (∀ r ∈ pts, m ≤ ptDist dist lc r) :=
  closestSpec_some dist lc pts t m
    (by rw [← scanClosest_eq_closestSpec]; exact h)

/-- C7 witness: both points of a concrete track are at distance 0 (a tie);
the first one's timestamp, 100, is the one returned. -/
theorem claim_C7_witness :
    ∃ pre q post,
      ([((0, 0), 100), ((1, 1), 200)] : List Pt) = pre ++ q :: post ∧
        q.2 = 100 ∧ ptDist dist0 (0, 0) q = 0 ∧
        (∀ r ∈ pre, (0 : ℚ) < ptDist dist0 (0, 0) r) ∧
        (∀ r ∈ ([((0, 0), 100), ((1, 1), 200)] : List Pt),
          (0 : ℚ) ≤ ptDist dist0 (0, 0) r) :=
  claim_C7 dist0 (0, 0) [((0, 0), 100), ((1, 1), 200)] 100 0 (by decide)

/-- C9: `classify_storm` returns the label of the first category threshold
(from highest to lowest) that the km/h wind speed meets or exceeds, and the
fallback label for speeds below 63 contains the phrase
"not considered dangerous". -/
theorem claim_C9 (w : Int) :
    (classify_storm w =
      if 252 ≤ w then
        "Category 5 of 5: Catastrophic – Most buildings destroyed, area uninhabitable."
      else if 209 ≤ w then
        "Category 4 of 5: Very severe – Long power/water outages, major destruction."
      else if 178 ≤ w then
        "Category 3 of 5: Severe – Widespread damage, long outages."
      else if 154 ≤ w then
        "Category 2 of 5: Moderate – Large trees uprooted, major roof damage."
      else if 119 ≤ w then
        "Category 1 of 5: Weak – Roof and tree damage, power outages likely."
      else if 63 ≤ w then
        "Tropical Storm – Strong wind, high seas, possible flooding."
      else "Below tropical storm threshold – not considered dangerous.")
    ∧ (w < 63 →
        strContains (classify_storm w) "not considered dangerous" = true) := by
  have h1 : classify_storm w =
      if 252 ≤ w then
        "Category 5 of 5: Catastrophic – Most buildings destroyed, area uninhabitable."
      else if 209 ≤ w then
        "Category 4 of 5: Very severe – Long power/water outages, major destruction."
      else if 178 ≤ w then
        "Category 3 of 5: Severe – Widespread damage, long outages."
      else if 154 ≤ w then
        "Category 2 of 5: Moderate – Large trees uprooted, major roof damage."
      else if 119 ≤ w then
        "Category 1 of 5: Weak – Roof and tree damage, power outages likely."
      else if 63 ≤ w then
        "Tropical Storm – Strong wind, high seas, possible flooding."
      else "Below tropical storm threshold – not considered dangerous." := by
    simp only [classify_storm, CATEGORY_SCALE, classifyGo, ge_iff_le]
  refine ⟨h1, fun hw => ?_⟩
  rw [h1, if_neg (by omega), if_neg (by omega), if_neg (by omega),
    if_neg (by omega), if_neg (by omega), if_neg (by omega)]
  decide

/-- C9 witness: wind 50 km/h is below every threshold and classified with the
"not considered dangerous" fallback. -/
theorem claim_C9_witness :
    strContains (classify_storm 50) "not considered dangerous" = true :=
  (claim_C9 50).2 (by decide)

lemma pyRound_le_intCast (d : ℚ) (n : Int) (h : d ≤ (n : ℚ)) :
    pyRound d ≤ n := by
  have hfl : ⌊d⌋ ≤ n := by
    have := Int.floor_le_floor h
    simpa using this
  have hfld : (⌊d⌋ : ℚ) ≤ d := Int.floor_le d
  simp only [pyRound]
  split_ifs with h1 h2 h3
  · exact hfl
  · have hlt : (⌊d⌋ : ℚ) < (n : ℚ) := by linarith
    have : ⌊d⌋ < n := by exact_mod_cast hlt
    omega
  · exact hfl
  · have heq : d - ⌊d⌋ = 1/2 := le_antisymm (not_lt.mp h2) (not_lt.mp h1)
    have hlt : (⌊d⌋ : ℚ) < (n : ℚ) := by linarith
    have : ⌊d⌋ < n := by exact_mod_cast hlt
    omega

/-- C10: every emitted `ProximityResult` has its rounded `distance_km` within
the integer alert radius — the within-radius test is made on the un-rounded
minimum, and rounding a rational that is at most an integer cannot exceed
that integer. -/
theorem claim_C10 (dist : ℚ × ℚ → ℚ × ℚ → ℚ) (coords : List (ℚ × ℚ))
    (times : List Int) (locs : List (String × (ℚ × ℚ))) (radius : Int) :
    ∀ res ∈ analyze_proximity dist coords times locs radius,
      res.distance_km ≤ radius := by
  intro res hres
  rw [analyze_proximity_eq] at hres
  obtain ⟨nl, _, hemit⟩ := List.mem_filterMap.mp hres
  unfold emitSpec at hemit
  cases hcs : closestSpec dist nl.2 (coords.zip times) with
  | none => rw [hcs] at hemit; exact absurd hemit (by simp)
  | some tm =>
    obtain ⟨t, m⟩ := tm
    rw [hcs] at hemit
    simp only [] at hemit
    by_cases hm : m ≤ (radius : ℚ)
    · rw [if_pos hm] at hemit
      have hr : res.distance_km = pyRound m := by
        rw [← Option.some.inj hemit]
      rw [hr]
      exact pyRound_le_intCast m radius hm
    · rw [if_neg hm] at hemit
      exact absurd hemit (by simp)

lemma pyRound_zero : pyRound 0 = 0 := by
  simp [pyRound]

lemma analyzeSample :
    analyze_proximity dist0 [(0, 0), (1, 1)] [100, 200] [("A", (0, 0))] 5 =
      [{ location := "A", expected_impact_time := 100 - 4 * 3600,
         distance_km := 0 }] := by
  have hc : closestSpec dist0 (0, 0)
      ([((0, 0), 100), ((1, 1), 200)] : List Pt) = some (100, 0) := by decide
  have hemit : emitSpec dist0 5 ([((0, 0), 100), ((1, 1), 200)] : List Pt)
      ("A", (0, 0)) =
      some { location := "A", expected_impact_time := 100 - 4 * 3600,
             distance_km := 0 } := by
    simp only [emitSpec, hc, pyRound_zero]
    norm_num
  rw [analyze_proximity_eq]
  simp only [List.zip_cons_cons, List.zip_nil_right, List.filterMap_cons,
    List.filterMap_nil, hemit]

/-- C10 witness: a concrete run emitting one result; its distance 0 is within
radius 5. -/
theorem claim_C10_witness :
    ({ location := "A", expected_impact_time := 100 - 4 * 3600,
       distance_km := 0 } : ProximityResult).distance_km ≤ 5 :=
  claim_C10 dist0 [(0, 0), (1, 1)] [100, 200] [("A", (0, 0))] 5
    { location := "A", expected_impact_time := 100 - 4 * 3600, distance_km := 0 }
    (by rw [analyzeSample]; exact List.mem_singleton.mpr rfl)

/-! ## Wind-speed extraction (claim C3) -/

/-- The wind extraction as claim C3 words it: the first line containing the
phrase wins outright, and a parse failure on that line makes the wind speed
absent (no later line is consulted). -/
def firstMatchWind (desc : String) : Option Int :=
  match (pySplitlines desc).find? (fun l =>
      strContains l "Maximum sustained winds") with
  | some l => parseWindToken l
  | none => none

lemma windScan_some_iff (w : Int) : ∀ ls : List String,
    windScan ls = some w ↔
      ∃ pre l post, ls = pre ++ l :: post ∧
        strContains l "Maximum sustained winds" = true ∧
        parseWindToken l = some w ∧
        ∀ l' ∈ pre,
          strContains l' "Maximum sustained winds" = false ∨
            parseWindToken l' = none
  | [] => by
    constructor
    · intro h; simp [windScan] at h
    · rintro ⟨pre, l, post, h, -⟩
      rcases pre with - | ⟨x, xs⟩ <;> simp_all
  | a :: ls => by
    constructor
    · intro h
      rw [windScan] at h
      by_cases ha : strContains a "Maximum sustained winds" = true
      · rw [if_pos ha] at h
        cases hpa : parseWindToken a with
        | some w' =>
          simp only [hpa] at h
          exact ⟨[], a, ls, rfl, ha, by rw [hpa, h], by simp⟩
        | none =>
          simp only [hpa] at h
          obtain ⟨pre, l, post, hsp, hl, hpl, hpre⟩ :=
            (windScan_some_iff w ls).mp h
          refine ⟨a :: pre, l, post, by rw [hsp]; rfl, hl, hpl, ?_⟩
          intro l' hl'
          rcases List.mem_cons.mp hl' with h1 | h1
          · subst h1; exact Or.inr hpa
          · exact hpre l' h1
      · rw [if_neg ha] at h
        obtain ⟨pre, l, post, hsp, hl, hpl, hpre⟩ :=
          (windScan_some_iff w ls).mp h
        refine ⟨a :: pre, l, post, by rw [hsp]; rfl, hl, hpl, ?_⟩
        intro l' hl'
        rcases List.mem_cons.mp hl' with h1 | h1
        · subst h1; exact Or.inl (by simpa using ha)
        · exact hpre l' h1
    · rintro ⟨pre, l, post, hsp, hl, hpl, hpre⟩
      rcases pre with - | ⟨x, xs⟩
      · obtain ⟨hal, hlp⟩ := List.cons.inj hsp
        subst hal; subst hlp
        rw [windScan, if_pos hl]
        simp only [hpl]
      · obtain ⟨hax, hlx⟩ := List.cons.inj (by simpa using hsp)
        subst hax
        have hrest : windScan ls = some w :=
          (windScan_some_iff w ls).mpr
            ⟨xs, l, post, hlx, hl, hpl, fun l' hl' => hpre l' (by simp [hl'])⟩
        rcases hpre a (by simp) with hfalse | hnone
        · rw [windScan, if_neg (by rw [hfalse]; simp)]
          exact hrest
        · by_cases ha : strContains a "Maximum sustained winds" = true
          · rw [windScan, if_pos ha]
            simp only [hnone]
            exact hrest
          · rw [windScan, if_neg ha]
            exact hrest

/-- C3 counterexample: an advisory whose first matching line's 4th token does
not parse, followed by a parseable matching line.  The claim ("the first such
matching line wins, and if ... parsing fails the wind speed is absent")
predicts absence, but the code continues past the failed line and yields
130. -/
theorem claim_C3_counterexample :
    extractWindKt
        "Maximum sustained winds increasing\nMaximum sustained winds: 130 knots"
        = some 130 ∧
      firstMatchWind
        "Maximum sustained winds increasing\nMaximum sustained winds: 130 knots"
        = none := by
  constructor <;> decide

/-- C3 (amended): wind speed is extracted by scanning lines in order for the
phrase "Maximum sustained winds"; the first matching line whose 4th
whitespace-separated token parses as an integer wins — a matching line that
fails to parse is passed over, and the wind speed is absent only when no
matching line parses.  An advisory consisting of the line
"Maximum sustained winds: 130 knots" yields 130. -/
theorem claim_C3 (desc : String) (w : Int) :
    (extractWindKt desc = some w ↔
      ∃ pre l post, pySplitlines desc = pre ++ l :: post ∧
        strContains l "Maximum sustained winds" = true ∧
        parseWindToken l = some w ∧
        ∀ l' ∈ pre,
          strContains l' "Maximum sustained winds" = false ∨
            parseWindToken l' = none)
    ∧ extractWindKt "Maximum sustained winds: 130 knots" = some 130 :=
  ⟨windScan_some_iff w (pySplitlines desc), by decide⟩

/-- C3 witness: the spec's own sample advisory, decomposed by the amended
characterization. -/
theorem claim_C3_witness :
    ∃ pre l post,
      pySplitlines "Maximum sustained winds: 130 knots" = pre ++ l :: post ∧
        strContains l "Maximum sustained winds" = true ∧
        parseWindToken l = some 130 ∧
        ∀ l' ∈ pre,
          strContains l' "Maximum sustained winds" = false ∨
            parseWindToken l' = none :=
  ((claim_C3 "Maximum sustained winds: 130 knots" 130).1).mp
    (claim_C3 "Maximum sustained winds: 130 knots" 130).2

/-! ## Timestamp resolution (claim C5) -/

deriving instance DecidableEq for Except

/-- Per-point parsing of the raw `when` texts, used to state claim C5's
"the full per-point timestamp list is used". -/
def parseWhensAll (parse : String → Option Int) : List String → Option (List Int)
  | [] => some []
  | s :: ss =>
    match parse (pyReplaceZ s), parseWhensAll parse ss with
    | some t, some ts => some (t :: ts)
    | _, _ => none

/-- The timestamp resolution as claim C5 words it: a begin/end pair is used
when one is present; otherwise the full per-point list is used. -/
def specResolveTimes (parse : String → Option Int)
    (timeSpan : Option (Option (Option String) × Option (Option String)))
    (whens : List (Option String)) : Except Unit (List Int) :=
  match timeSpan with
  | some (some (some bs), some (some es)) =>
    match parse (pyReplaceZ bs), parse (pyReplaceZ es) with
    | some t1, some t2 => .ok [t1, t2]
    | _, _ => .error ()
  | _ => whens.mapM (whenEntry parse)

lemma mapM_whenEntry (parse : String → Option Int) :
    ∀ (ss : List String) (vs : List Int),
      parseWhensAll parse ss = some vs →
      (ss.map some).mapM (whenEntry parse) = Except.ok vs
  | [], vs, h => by
    simp only [parseWhensAll, Option.some.injEq] at h
    subst h
    rfl
  | s :: ss, vs, h => by
    rw [parseWhensAll] at h
    cases hp : parse (pyReplaceZ s) with
    | none => rw [hp] at h; exact absurd h (by simp)
    | some t =>
      rw [hp] at h
      cases hm : parseWhensAll parse ss with
      | none => rw [hm] at h; exact absurd h (by simp)
      | some ts' =>
        rw [hm] at h
        simp only [Option.some.injEq] at h
        subst h
        simp only [List.map_cons, List.mapM_cons, whenEntry, hp,
          mapM_whenEntry parse ss ts' hm]
        rfl

/-- C5 counterexample: a record with a `TimeSpan` element whose `end` child is
missing, plus two well-formed `when` tags.  No begin/end pair is present, so
the claim predicts the full per-point list is used; the code leaves the
timestamp list empty and never consults the `when` tags. -/
theorem claim_C5_counterexample :
    resolveTimes pyFromIso (some (some (some "2024-08-01T12:00:00Z"), none))
        [some "2024-08-01T12:00:00Z", some "2024-08-01T18:00:00Z"] = .ok []
      ∧ resolveTimes pyFromIso
          (some (some (some "2024-08-01T12:00:00Z"), none))
          [some "2024-08-01T12:00:00Z", some "2024-08-01T18:00:00Z"] ≠
        specResolveTimes pyFromIso
          (some (some (some "2024-08-01T12:00:00Z"), none))
          [some "2024-08-01T12:00:00Z", some "2024-08-01T18:00:00Z"] := by
  constructor <;> decide

/-- C5 (amended): when a `TimeSpan` element is present its begin/end pair is
used if both child elements exist and parse (a 2-point timestamp list
bracketing the forecast window); if `begin` or `end` is missing, the
timestamp list is empty — the per-point `when` list is NOT consulted.  Only
when no `TimeSpan` element exists is the full per-point list used, every text
parsed with `Z` replaced by `+00:00` (UTC). -/
theorem claim_C5 (parse : String → Option Int)
    (ts : Option (Option (Option String) × Option (Option String)))
    (whens : List (Option String)) :
    (∀ bs es t1 t2, ts = some (some (some bs), some (some es)) →
        parse (pyReplaceZ bs) = some t1 → parse (pyReplaceZ es) = some t2 →
        resolveTimes parse ts whens = .ok [t1, t2])
    ∧ (∀ b e, ts = some (b, e) → b = none ∨ e = none →
        resolveTimes parse ts whens = .ok [])
    ∧ (∀ (ss : List String) (vs : List Int), ts = none → whens = ss.map some →
        parseWhensAll parse ss = some vs →
        resolveTimes parse ts whens = .ok vs) := by
  refine ⟨?_, ?_, ?_⟩
  · intro bs es t1 t2 hts h1 h2
    subst hts
    simp [resolveTimes, h1, h2]
  · intro b e hts hbe
    subst hts
    rcases hbe with hb | he
    · subst hb; rfl
    · subst he; cases b with
      | none => rfl
      | some bo => rfl
  · intro ss vs hts hw hss
    subst hts; subst hw
    exact mapM_whenEntry parse ss vs hss

/-- C5 witness: a complete begin/end pair six hours apart resolves to the
2-point list of its parsed UTC instants. -/
theorem claim_C5_witness :
    resolveTimes pyFromIso
        (some (some (some "2024-08-01T12:00:00Z"),
               some (some "2024-08-01T18:00:00Z"))) [] =
      .ok [65071771200, 65071792800] :=
  (claim_C5 pyFromIso
      (some (some (some "2024-08-01T12:00:00Z"),
             some (some "2024-08-01T18:00:00Z"))) []).1
    "2024-08-01T12:00:00Z" "2024-08-01T18:00:00Z" 65071771200 65071792800
    rfl (by decide) (by decide)

/-! ## Truncation (claim C8) and report assembly (claim C4) -/

/-- The decoded track: the truncation performed by `main` (src lines 209-211)
followed by the `zip` the scan iterates over (src line 129). -/
def trackOf (coords : List (ℚ × ℚ)) (times : List Int) : List Pt :=
  let min_len := min coords.length times.length
  (coords.take min_len).zip (times.take min_len)

/-- C8: when the parsed coordinate count differs from the parsed timestamp
count, the decoded track has exactly `min` of the two counts, both truncated
lists have that length, and the proximity analysis of the full lists equals
that of the truncated lists (the scan never reads past the shorter list, so
no index can be out of range; the Lean embedding is total by construction). -/
theorem claim_C8 (coords : List (ℚ × ℚ)) (times : List Int)
    (h : coords.length ≠ times.length) :
    (trackOf coords times).length = min coords.length times.length
    ∧ (coords.take (min coords.length times.length)).length =
        min coords.length times.length
    ∧ (times.take (min coords.length times.length)).length =
        min coords.length times.length
    ∧ ∀ dist locs radius,
        analyze_proximity dist coords times locs radius =
          analyze_proximity dist
            (coords.take (min coords.length times.length))
            (times.take (min coords.length times.length)) locs radius := by
  refine ⟨?_, ?_, ?_, ?_⟩
  · simp only [trackOf, List.length_zip, List.length_take]
    omega
  · simp only [List.length_take]; omega
  · simp only [List.length_take]; omega
  · intro dist locs radius
    rw [analyze_proximity_eq, analyze_proximity_eq, take_min_zip]

/-- C8 witness: two coordinates against one timestamp give a track of exactly
one point. -/
theorem claim_C8_witness :
    (trackOf [(0, 0), (1, 1)] [100]).length = 1 :=
  (claim_C8 [(0, 0), (1, 1)] [100] (by decide)).1

/-- C4: a produced report has status "ok" unless the feed could not be
obtained or parsed, in which case status is "error", the storm list is empty
and the message is the fixed fetch-failure message; in the "ok" case the
summary message is the no-storm message exactly when the storm list is
empty, and the count message otherwise.  (A run aborted by the
coordinate-parse `return` produces no report at all, hence the hypothesis.) -/
theorem claim_C4 (parse : String → Option Int) (dist : ℚ × ℚ → ℚ × ℚ → ℚ)
    (cfg : Config) (fetched : Option (List RawPlacemark)) (rep : Report)
    (h : buildReport parse dist cfg fetched = some rep) :
    (fetched = none → rep.status = "error" ∧ rep.storms = [] ∧
        rep.message = "Failed to fetch or parse active storm data.")
    ∧ (∀ pms, fetched = some pms → rep.status = "ok" ∧
        (rep.storms = [] →
          rep.message = "No active dangerous storms near monitored locations.")
        ∧ (rep.storms ≠ [] →
          rep.message =
            toString rep.storms.length ++ " active dangerous storm(s) found.")) := by
  cases fetched with
  | none =>
    simp only [buildReport, Option.some.injEq] at h
    subst h
    exact ⟨fun _ => ⟨rfl, rfl, rfl⟩, fun pms hpms => absurd hpms (by simp)⟩
  | some pms =>
    simp only [buildReport] at h
    cases hr : runLoop parse dist cfg pms [] with
    | none => simp only [hr] at h; exact absurd h (by simp)
    | some storms =>
      simp only [hr, Option.some.injEq] at h
      subst h
      refine ⟨fun hc => absurd hc (by simp), fun pms' _ => ⟨rfl, ?_, ?_⟩⟩
      · intro hst
        simp only at hst ⊢
        rw [hst]
        rfl
      · intro hst
        simp only at hst ⊢
        have hne : storms.isEmpty = false := by
          cases hstorms : storms with
          | nil => exact absurd hstorms hst
          | cons a l => rfl
        rw [hne]
        rfl

/-- C4 witness: a failed fetch yields the error report with an empty storm
list and the fixed failure message. -/
theorem claim_C4_witness :
    ({ status := "error",
       message := "Failed to fetch or parse active storm data.",
       locations_monitored := [], alert_radius_km := 150,
       storms := [] } : Report).status = "error"
    ∧ ({ status := "error",
         message := "Failed to fetch or parse active storm data.",
         locations_monitored := [], alert_radius_km := 150,
         storms := [] } : Report).storms = []
    ∧ ({ status := "error",
         message := "Failed to fetch or parse active storm data.",
         locations_monitored := [], alert_radius_km := 150,
         storms := [] } : Report).message =
        "Failed to fetch or parse active storm data." :=
  (claim_C4 parse0 dist0
    ({ alert_radius_km := 150, wind_threshold_kt := 60,
       locations := [] } : Config) none
    { status := "error",
      message := "Failed to fetch or parse active storm data.",
      locations_monitored := [], alert_radius_km := 150, storms := [] }
    rfl).1 rfl

/-! ## Per-record filtering (claim C2) -/

lemma closestSpec_within_iff (dist : ℚ × ℚ → ℚ × ℚ → ℚ) (lc : ℚ × ℚ)
    (pts : List Pt) (q : ℚ) :
    (∃ t m, closestSpec dist lc pts = some (t, m) ∧ m ≤ q) ↔
      ∃ p ∈ pts, ptDist dist lc p ≤ q := by
  constructor
  · rintro ⟨t, m, h, hq⟩
    obtain ⟨pre, p, post, hsp, -, hpm, -, -⟩ :=
      closestSpec_some dist lc pts t m h
    exact ⟨p, by simp [hsp], by rw [hpm]; exact hq⟩
  · rintro ⟨p, hp, hq⟩
    have hne : pts ≠ [] := fun hnil => by subst hnil; simp at hp
    cases hcs : closestSpec dist lc pts with
    | none => exact absurd ((closestSpec_none_iff dist lc pts).mp hcs) hne
    | some tm =>
      obtain ⟨t, m⟩ := tm
      obtain ⟨-, -, -, -, -, -, -, hall⟩ :=
        closestSpec_some dist lc pts t m hcs
      exact ⟨t, m, rfl, le_trans (hall p hp) hq⟩

lemma analyze_ne_nil_iff (dist : ℚ × ℚ → ℚ × ℚ → ℚ) (coords : List (ℚ × ℚ))
    (times : List Int) (locs : List (String × (ℚ × ℚ))) (radius : Int) :
    analyze_proximity dist coords times locs radius ≠ [] ↔
      ∃ nl ∈ locs, ∃ p ∈ coords.zip times,
        ptDist dist nl.2 p ≤ (radius : ℚ) := by
  rw [analyze_proximity_eq, Ne, List.filterMap_eq_nil_iff]
  push_neg
  constructor
  · rintro ⟨nl, hnl, hne⟩
    refine ⟨nl, hnl, ?_⟩
    refine (closestSpec_within_iff dist nl.2 (coords.zip times)
      ((radius : ℚ))).mp ?_
    unfold emitSpec at hne
    cases hcs : closestSpec dist nl.2 (coords.zip times) with
    | none => rw [hcs] at hne; exact absurd rfl hne
    | some tm =>
      obtain ⟨t, m⟩ := tm
      rw [hcs] at hne
      simp only [] at hne
      by_cases hm : m ≤ (radius : ℚ)
      · exact ⟨t, m, rfl, hm⟩
      · rw [if_neg hm] at hne; exact absurd rfl hne
  · rintro ⟨nl, hnl, p, hp, hq⟩
    obtain ⟨t, m, hcs, hm⟩ :=
      (closestSpec_within_iff dist nl.2 (coords.zip times)
        ((radius : ℚ))).mpr ⟨p, hp, hq⟩
    refine ⟨nl, hnl, ?_⟩
    simp [emitSpec, hcs, if_pos hm]

lemma pairsOf_length : ∀ (l : List (ℚ × Option ℚ)),
    (∀ c ∈ l, c.2 ≠ none) → (pairsOf l).length = l.length
  | [], _ => rfl
  | c :: l, h => by
    cases hc : c.2 with
    | none => exact absurd hc (h c (by simp))
    | some y =>
      simp only [pairsOf, List.filterMap_cons, hc, Option.map_some',
        List.length_cons]
      have := pairsOf_length l (fun c' hc' => h c' (List.mem_cons_of_mem c hc'))
      simp only [pairsOf] at this
      rw [this]

lemma pairsOf_take : ∀ (l : List (ℚ × Option ℚ)) (m : Nat),
    (∀ c ∈ l, c.2 ≠ none) → pairsOf (l.take m) = (pairsOf l).take m
  | _, 0, _ => by simp [pairsOf]
  | [], _, _ => by simp [pairsOf]
  | c :: l, m + 1, h => by
    cases hc : c.2 with
    | none => exact absurd hc (h c (by simp))
    | some y =>
      have ih := pairsOf_take l m (fun c' hc' => h c' (List.mem_cons_of_mem c hc'))
      simp only [pairsOf] at ih
      simp only [List.take_succ_cons, pairsOf, List.filterMap_cons, hc,
        Option.map_some', ih]

/-- C2: a decoded record (usable name, resolvable timestamps, fully parsed
`(lon, lat)` coordinate pairs) contributes a storm entry to the report iff a
wind speed was extracted from its advisory text, that speed is at least the
configured threshold, and either the monitored-location set is empty or some
monitored location lies within the alert radius of a point of the decoded
track. -/
theorem claim_C2 (parse : String → Option Int) (dist : ℚ × ℚ → ℚ × ℚ → ℚ)
    (cfg : Config) (r : RawPlacemark) (nmText : String)
    (hname : r.name = some nmText) (hne : nmText ≠ "")
    (times0 : List Int)
    (htimes : resolveTimes parse r.timeSpan r.whens = .ok times0)
    (rawCoords : List (ℚ × Option ℚ))
    (hcoords : parseCoords r.coordText = .ok rawCoords)
    (hpairs : ∀ c ∈ rawCoords, c.2 ≠ none) :
    (∃ s, processPlacemark parse dist cfg r = .keep s) ↔
      ∃ w, extractWindKt (r.desc.getD "") = some w ∧
        cfg.wind_threshold_kt ≤ w ∧
        (cfg.locations = [] ∨
          ∃ nl ∈ cfg.locations, ∃ p ∈ trackOf (pairsOf rawCoords) times0,
            ptDist dist nl.2 p ≤ (cfg.alert_radius_km : ℚ)) := by
  have hzip :
      (pairsOf (rawCoords.take (min rawCoords.length times0.length))).zip
        (times0.take (min rawCoords.length times0.length)) =
        trackOf (pairsOf rawCoords) times0 := by
    rw [pairsOf_take rawCoords _ hpairs, trackOf,
      pairsOf_length rawCoords hpairs]
  simp only [processPlacemark, hname, htimes, hcoords, if_neg hne]
  cases hw : extractWindKt (r.desc.getD "") with
  | none =>
    constructor
    · rintro ⟨s, hs⟩; exact absurd hs (by simp)
    · rintro ⟨w', hw', -⟩; exact absurd hw' (by simp)
  | some w =>
    simp only []
    by_cases hth : w < cfg.wind_threshold_kt
    · rw [if_pos hth]
      constructor
      · rintro ⟨s, hs⟩; exact absurd hs (by simp)
      · rintro ⟨w', hw', hle, -⟩
        rw [Option.some.injEq] at hw'
        subst hw'
        omega
    · rw [if_neg hth]
      have hany :
          ((rawCoords.take (min rawCoords.length times0.length)).any
            (fun c => c.2.isNone)) = false := by
        rw [List.any_eq_false]
        intro c hc
        have hcp := hpairs c (List.mem_of_mem_take hc)
        cases hcc : c.2 with
        | none => exact absurd hcc hcp
        | some y => simp [hcc]
      rw [if_neg (by rintro ⟨-, h2⟩; rw [hany] at h2; exact Bool.false_ne_true h2)]
      by_cases hfin : ¬ cfg.locations.isEmpty ∧
          (analyze_proximity dist
            (pairsOf (rawCoords.take (min rawCoords.length times0.length)))
            (times0.take (min rawCoords.length times0.length))
            cfg.locations cfg.alert_radius_km).isEmpty
      · rw [if_pos hfin]
        obtain ⟨hnemp, hempty⟩ := hfin
        constructor
        · rintro ⟨s, hs⟩; exact absurd hs (by simp)
        · rintro ⟨w', hw', hle, hor⟩
          rcases hor with hloc | hwithin
          · exact absurd (by rw [hloc]; rfl) hnemp
          · exfalso
            have hne2 := (analyze_ne_nil_iff dist
              (pairsOf (rawCoords.take (min rawCoords.length times0.length)))
              (times0.take (min rawCoords.length times0.length))
              cfg.locations cfg.alert_radius_km).mpr (by rw [hzip]; exact hwithin)
            exact hne2 (List.isEmpty_iff.mp hempty)
      · rw [if_neg hfin]
        push_neg at hfin
        constructor
        · rintro -
          refine ⟨w, rfl, by omega, ?_⟩
          by_cases hemp : cfg.locations.isEmpty
          · exact Or.inl (List.isEmpty_iff.mp hemp)
          · refine Or.inr ?_
            have hres := hfin hemp
            have := (analyze_ne_nil_iff dist
              (pairsOf (rawCoords.take (min rawCoords.length times0.length)))
              (times0.take (min rawCoords.length times0.length))
              cfg.locations cfg.alert_radius_km).mp
              (fun hnil => hres (by rw [hnil]; rfl))
            rw [hzip] at this
            exact this
        · rintro -
          exact ⟨_, rfl⟩

/-- C2 witness: a concrete storm record with winds of 130 kt against a 60 kt
threshold and one monitored location at distance 0. -/
theorem claim_C2_witness :
    (∃ s, processPlacemark parse0 dist0
        ({ alert_radius_km := 150, wind_threshold_kt := 60,
           locations := [("A", (0, 0))] } : Config)
        { name := some "Hurricane Test",
          desc := some "Maximum sustained winds: 130 knots",
          coordText := some (some "0,0 1,1"), timeSpan := none,
          whens := [some "2024-08-01T12:00:00Z", some "2024-08-01T18:00:00Z"] }
        = .keep s) ↔
      ∃ w, extractWindKt "Maximum sustained winds: 130 knots" = some w ∧
        (60 : Int) ≤ w ∧
        ([("A", ((0 : ℚ), (0 : ℚ)))] = ([] : List (String × (ℚ × ℚ))) ∨
          ∃ nl ∈ [("A", ((0 : ℚ), (0 : ℚ)))],
            ∃ p ∈ trackOf (pairsOf [(0, some 0), (1, some 1)]) [0, 0],
              ptDist dist0 nl.2 p ≤ ((150 : Int) : ℚ)) :=
  claim_C2 parse0 dist0
    ({ alert_radius_km := 150, wind_threshold_kt := 60,
       locations := [("A", (0, 0))] } : Config)
    { name := some "Hurricane Test",
      desc := some "Maximum sustained winds: 130 knots",
      coordText := some (some "0,0 1,1"), timeSpan := none,
      whens := [some "2024-08-01T12:00:00Z", some "2024-08-01T18:00:00Z"] }
    "Hurricane Test" rfl (by decide) [0, 0] (by decide)
    [(0, some 0), (1, some 1)] (by decide) (by decide)

/-! ## Per-record fault isolation (claim C1) -/

/-- A placemark whose coordinate text does not parse as floats: the inner
`except` handler around coordinate parsing (src lines 212-214) logs and then
executes `return`, aborting `main`. -/
def badCoordRec : RawPlacemark :=
  { name := some "Bad Storm",
    desc := some "Maximum sustained winds: 130 knots",
    coordText := some (some "abc,18"), timeSpan := none,
    whens := [some "2024-08-01T12:00:00Z"] }

/-- A fully well-formed storm record. -/
def goodRec : RawPlacemark :=
  { name := some "Hurricane Test",
    desc := some "Maximum sustained winds: 130 knots",
    coordText := some (some "0,0 1,1"), timeSpan := none,
    whens := [some "2024-08-01T12:00:00Z", some "2024-08-01T18:00:00Z"] }

/-- A configuration with no monitored locations (all qualifying storms are
included). -/
def cfgNoLoc : Config :=
  { alert_radius_km := 150, wind_threshold_kt := 60, locations := [] }

/-- The storm entry `goodRec` decodes to. -/
def goodEntry : StormEntry :=
  { name := "Hurricane Test", wind_kt := 130, wind_kmh := 241,
    category_description :=
      "Category 4 of 5: Very severe – Long power/water outages, major destruction.",
    locations := [] }

set_option maxRecDepth 2048 in
lemma knots_to_kmh_130 : knots_to_kmh 130 = 241 := by
  with_unfolding_all decide

lemma processPlacemark_goodRec :
    processPlacemark pyFromIso dist0 cfgNoLoc goodRec = .keep goodEntry := by
  have ht : resolveTimes pyFromIso goodRec.timeSpan goodRec.whens =
      .ok [65071771200, 65071792800] := by decide
  have hc : parseCoords goodRec.coordText = .ok [(0, some 0), (1, some 1)] := by
    decide
  have hwind : extractWindKt (goodRec.desc.getD "") = some 130 := by decide
  have hcat : classify_storm 241 =
      "Category 4 of 5: Very severe – Long power/water outages, major destruction." := by
    decide
  simp only [goodRec, cfgNoLoc] at ht hc ⊢
  simp only [processPlacemark, ht, hc]
  rw [if_neg (by decide)]
  simp only [goodRec] at hwind
  simp only [hwind]
  rw [if_neg (by decide)]
  rw [if_neg (by rintro ⟨h1, -⟩; exact h1 rfl)]
  rw [if_neg (by rintro ⟨h1, -⟩; exact h1 rfl)]
  simp only [knots_to_kmh_130, hcat, goodEntry]
  decide

/-- C1 as the code behaves (`code_bug` evidence): a feed of two placemarks
where the first has an unparseable coordinate text and the second is a valid
dangerous storm produces NO report at all — the per-record coordinate
handler `return`s out of `main`, so the later record is never decoded and no
output is written; the same valid record alone produces a report with one
storm.  The claim (and the spec) say the bad record alone would be skipped. -/
theorem claim_C1 :
    buildReport pyFromIso dist0 cfgNoLoc (some [badCoordRec, goodRec]) = none
    ∧ buildReport pyFromIso dist0 cfgNoLoc (some [goodRec]) =
        some { status := "ok",
               message := "1 active dangerous storm(s) found.",
               locations_monitored := [], alert_radius_km := 150,
               storms := [goodEntry] } := by
  constructor
  · decide
  · simp only [buildReport, runLoop, processPlacemark_goodRec]
    rfl

end Carstorms
